import Mathlib

/-!
Shallow embedding of the mpxpy client (Mathpix/mpxpy), covering the parts of
`mpxpy/conversion.py`, `mpxpy/mathpix_client.py` and `mpxpy/image.py` that the
verified properties are about.  The HTTP transport (`mpxpy/request_handler.py`,
an external collaborator not algorithmically relevant here) is embedded as an
explicit stream of status responses / downloaded chunks passed to each
operation; filesystem effects are recorded in an explicit trace.
-/

namespace Mpxpy

/-- A status payload returned by the `v3/converter` status endpoint, as consumed
by `Conversion.wait_until_complete` (conversion.py lines 57-68) and
`Conversion.download_output_to_local_path` (line 113).  `status` is the overall
job status string; `conversion_status` is the per-format map — `none` models a
JSON object that has no `"conversion_status"` key, `some m` an object whose
`"conversion_status"` maps each format name to an object whose `"status"` field
is the paired string. -/
structure StatusResponse where
  status : String
  conversion_status : Option (List (String × String))
deriving DecidableEq

/-- The exceptions the embedded operations can surface.  Python builtins
`ValueError`, `TypeError`, `KeyError` keep their names; `validationError`,
`conversionIncomplete` and `filesystemError` embed the library's own
`ValidationError`, `ConversionIncompleteError` and `FilesystemError` classes
(imported from `mpxpy/errors.py`).  The spec's error names map as follows:
`InvalidArgument` is the `ValueError`/`ValidationError` family,
`IncompleteJobError` is `ConversionIncompleteError`, `FilesystemError` is
itself, `RemoteError` is the transport-level `MathpixClientError` family.
`conversionIncomplete` carries the `status_info` argument given to the
constructor (`none` models the default `None`, stored as `{}` by
`ConversionIncompleteError.__init__`); `filesystemError` carries the pending
exception that Python chains onto the newly raised error as its context. -/
inductive MpxErr where
  | valueError
  | typeError
  | keyError
  | validationError
  | remoteError
  | conversionIncomplete (status_info : Option StatusResponse)
  | filesystemError (context : String)
deriving DecidableEq

/-- Whether an exception belongs to the spec's four-entry typed error taxonomy
(`InvalidArgument`, `RemoteError`, `IncompleteJobError`, `FilesystemError`).
Raw Python `TypeError`/`KeyError` do not. -/
def MpxErr.isTypedError : MpxErr → Bool
  | .typeError => false
  | .keyError => false
  | _ => true

/-- The success test of conversion.py lines 60-63:
`conversion_status['status'] == 'completed' and all(format_data['status'] ==
'completed' or format_data['status'] == 'error' for _, format_data in
conversion_status['conversion_status'].items())`.
Python's `and` short-circuits, so the `conversion_status` key is only read when
the overall status is `"completed"`; reading it from a payload without that key
raises `KeyError`. -/
def checkSuccess (r : StatusResponse) : Except MpxErr Bool :=
  if r.status = "completed" then
    match r.conversion_status with
    | some fmts => .ok (fmts.all fun fd => fd.2 = "completed" || fd.2 = "error")
    | none => .error .keyError
  else .ok false

/-- The timeout argument of `wait_until_complete`.  `int t` is a Python value
for which `isinstance(timeout, int)` holds (value `t`); `notAnInt` is any value
of non-integer type. -/
inductive TimeoutArg where
  | int (t : Int)
  | notAnInt
deriving DecidableEq

/-- The polling loop of conversion.py lines 55-73, with the `while attempt <
timeout` condition fuelled by `remaining = timeout - attempt`.  `responses i`
is the payload returned by the (i+1)-th call to `self.conversion_status()`.
Returns the final value of `completed` (or the exception raised) together with
the number of status fetches performed. -/
def waitLoop (responses : Nat → StatusResponse) : Nat → Nat → Except MpxErr Bool × Nat
  | attempt, 0 => (.ok false, attempt - 1)
  | attempt, remaining + 1 =>
    match checkSuccess (responses (attempt - 1)) with
    | .error e => (.error e, attempt)
    | .ok true => (.ok true, attempt)
    | .ok false =>
      if (responses (attempt - 1)).status = "error" then (.ok false, attempt)
      else waitLoop responses (attempt + 1) remaining

/-- `Conversion.wait_until_complete` (conversion.py lines 41-73).  Line 52
raises `ValueError` when `timeout` is not an `int` or is `≤ 0`, before any
status fetch; otherwise the loop starts with `attempt = 1` and runs while
`attempt < timeout`.  The result pairs the outcome (returned boolean or raised
exception) with the number of status fetches performed. -/
def wait_until_complete (timeout : TimeoutArg) (responses : Nat → StatusResponse) :
    Except MpxErr Bool × Nat :=
  match timeout with
  | .notAnInt => (.error .valueError, 0)
  | .int t => if t ≤ 0 then (.error .valueError, 0) else waitLoop responses 1 (t.toNat - 1)

instance {ε α : Type} [DecidableEq ε] [DecidableEq α] : DecidableEq (Except ε α) := fun a b =>
  match a, b with
  | .ok x, .ok y => if h : x = y then .isTrue (by rw [h]) else .isFalse (by simp [h])
  | .error x, .error y => if h : x = y then .isTrue (by rw [h]) else .isFalse (by simp [h])
  | .ok _, .error _ => .isFalse (by simp)
  | .error _, .ok _ => .isFalse (by simp)

/-- A payload that triggers neither stopping condition of the poller: the
success test evaluates to `False` (without raising) and the overall status is
not `"error"`. -/
def notStopping (r : StatusResponse) : Prop :=
  checkSuccess r = .ok false ∧ r.status ≠ "error"

instance (r : StatusResponse) : Decidable (notStopping r) := by
  unfold notStopping
  infer_instance

/-- First-match association-list lookup, embedding Python `dict` indexing for
JSON-derived dictionaries (whose keys are unique). -/
def lookupKey {α : Type} (m : List (String × α)) (k : String) : Option α :=
  match m with
  | [] => none
  | (k', v) :: rest => if k' = k then some v else lookupKey rest k

/-- `str.startswith`, computed on the character lists (kernel-reducible). -/
def strStartsWith (s p : String) : Bool := p.toList.isPrefixOf s.toList

/-- `str.endswith`, computed on the character lists (kernel-reducible). -/
def strEndsWith (s p : String) : Bool := p.toList.isSuffixOf s.toList

/-- `os.path.join(a, b)` for the two-argument calls in conversion.py: an
absolute second component replaces the first; an empty or `/`-terminated first
component is prepended as-is; otherwise a `/` separator is inserted. -/
def pathJoin (a b : String) : String :=
  if strStartsWith b "/" then b
  else if a = "" then b
  else if strEndsWith a "/" then a ++ b
  else a ++ "/" ++ b

/-- The guard at conversion.py line 113:
`if not 'conversion_status' in conversion_status or
conversion_status['conversion_status'][conversion_format]['status'] != 'completed'`.
`.ok true` means the guard is false and the download proceeds; `.ok false`
means the guard is true (missing map, or the format's status is not
`"completed"`) and `ConversionIncompleteError` is raised; indexing a present
map with a format it does not contain raises `KeyError`. -/
def checkFormatCompleted (cs : StatusResponse) (fmt : String) : Except MpxErr Bool :=
  match cs.conversion_status with
  | none => .ok false
  | some m =>
    match lookupKey m fmt with
    | none => .error .keyError
    | some fd => .ok (fd = "completed")

/-- The filesystem effects of a call: directories passed to `os.makedirs` and
files written (path paired with the byte content flushed to it). -/
structure FsTrace where
  dirs_created : List String
  files_written : List (String × List Nat)
deriving DecidableEq

/-- `Conversion.download_output_to_local_path` (conversion.py lines 101-128).
`statusResp` is the payload returned by the initial `self.conversion_status()`
fetch; `chunks` are the bodies yielded by `response.iter_content(chunk_size=8192)`
(the loop skips falsy — empty — chunks); `failAt = some (n, cause)` injects a
fault into the write loop: the step after the first `n` chunk writes raises an
exception `cause`, which line 125-126 turns into `FilesystemError` (the
original exception stays chained to it as its context).  Returns the outcome
(saved path or exception) and the filesystem trace: line 117-118 calls
`os.makedirs(path, exist_ok=True)` only for a non-empty `path`, and the file
`{conversion_id}.{conversion_format}` is opened inside it regardless of how
far the write loop gets. -/
def download_output_to_local_path (conversion_id conversion_format path : String)
    (statusResp : StatusResponse) (chunks : List (List Nat))
    (failAt : Option (Nat × String)) : Except MpxErr String × FsTrace :=
  match checkFormatCompleted statusResp conversion_format with
  | .error e => (.error e, ⟨[], []⟩)
  | .ok false => (.error (.conversionIncomplete none), ⟨[], []⟩)
  | .ok true =>
    let dirs := if path ≠ "" then [path] else []
    let file_path := pathJoin path (conversion_id ++ "." ++ conversion_format)
    let writes := chunks.filter (fun c => c ≠ [])
    match failAt with
    | none => (.ok file_path, ⟨dirs, [(file_path, writes.flatten)]⟩)
    | some (n, cause) =>
      (.error (.filesystemError cause), ⟨dirs, [(file_path, (writes.take n).flatten)]⟩)

/-- A Python value occurring as a key of the `image_options` dictionary literal
at mathpix_client.py lines 130-159 (the literal uses the parameter *values* as
keys).  Lists and dicts are unhashable; `None`, booleans, numbers, strings and
tuples are hashable. -/
inductive PyKey where
  | pynone
  | pybool (b : Bool)
  | pystr (s : String)
  | pyrat (q : ℚ)
  | pypair (a b : String)
  | pylist (xs : List String)
  | pydict (d : List (String × String))
deriving DecidableEq

/-- Whether `hash(key)` succeeds: `list` and `dict` values raise
`TypeError: unhashable type`. -/
def PyKey.hashable : PyKey → Bool
  | .pylist _ => false
  | .pydict _ => false
  | _ => true

/-- Whether the value is a `str` (required of every key expanded by `**` into
keyword arguments). -/
def PyKey.isStr : PyKey → Bool
  | .pystr _ => true
  | _ => false

/-- A JSON-like dictionary argument (`Dict[str, Any]` simplified to string
values; only its unhashability matters here). -/
abbrev PyDict := List (String × String)

def keyOfDict : Option PyDict → PyKey
  | none => .pynone
  | some d => .pydict d

def keyOfList : Option (List String) → PyKey
  | none => .pynone
  | some xs => .pylist xs

def keyOfBool : Option Bool → PyKey
  | none => .pynone
  | some b => .pybool b

def keyOfRat : Option ℚ → PyKey
  | none => .pynone
  | some q => .pyrat q

def keyOfPair : Option (String × String) → PyKey
  | none => .pynone
  | some p => .pypair p.1 p.2

/-- The optional processing options shared by `MathpixClient.image_new`
(mathpix_client.py lines 40-71) and `Image.__init__` (image.py lines 22-107),
in source order, each defaulting to `None`. -/
structure ImageProcessingOptions where
  callback : Option PyDict := none
  formats : Option (List String) := none
  data_options : Option PyDict := none
  include_detected_alphabets : Option Bool := none
  alphabets_allowed : Option PyDict := none
  region : Option PyDict := none
  enable_blue_hsv_filter : Option Bool := none
  confidence_threshold : Option ℚ := none
  confidence_rate_threshold : Option ℚ := none
  include_equation_tags : Option Bool := none
  include_line_data : Option Bool := none
  include_word_data : Option Bool := none
  include_smiles : Option Bool := none
  include_inchi : Option Bool := none
  include_geometry_data : Option Bool := none
  include_diagram_text : Option Bool := none
  auto_rotate_confidence_threshold : Option ℚ := none
  rm_spaces : Option Bool := none
  rm_fonts : Option Bool := none
  idiomatic_eqn_arrays : Option Bool := none
  idiomatic_braces : Option Bool := none
  numbers_default_to_math : Option Bool := none
  math_fonts_default_to_math : Option Bool := none
  math_inline_delimiters : Option (String × String) := none
  math_display_delimiters : Option (String × String) := none
  enable_spell_check : Option Bool := none
  enable_tables_fallback : Option Bool := none
  fullwidth_punctuation : Option Bool := none
deriving DecidableEq

/-- The full argument list of `MathpixClient.image_new`. -/
structure ImageNewArgs where
  file_path : Option String := none
  file_url : Option String := none
  opts : ImageProcessingOptions := {}
deriving DecidableEq

/-- The check at mathpix_client.py line 115: true when neither or both of
`file_path` and `file_url` are provided (then `ValidationError` is raised). -/
def fileArgCheckFails (a : ImageNewArgs) : Bool :=
  (a.file_path.isNone && a.file_url.isNone) || (a.file_path.isSome && a.file_url.isSome)

/-- A range check of the form `x is not None and (x < 0 or x > 1)` used at
mathpix_client.py lines 121-129. -/
def badThreshold : Option ℚ → Bool
  | none => false
  | some q => q < 0 || 1 < q

/-- The keys of the `image_options` dictionary literal at mathpix_client.py
lines 130-159, in source order.  Each key expression is the *value* of the
corresponding parameter (`callback: callback`, `formats: formats`, ...), not
its name. -/
def imageOptionKeys (a : ImageNewArgs) : List PyKey :=
  [keyOfDict a.opts.callback,
   keyOfList a.opts.formats,
   keyOfDict a.opts.data_options,
   keyOfBool a.opts.include_detected_alphabets,
   keyOfDict a.opts.alphabets_allowed,
   keyOfDict a.opts.region,
   keyOfBool a.opts.enable_blue_hsv_filter,
   keyOfRat a.opts.confidence_threshold,
   keyOfRat a.opts.confidence_rate_threshold,
   keyOfBool a.opts.include_equation_tags,
   keyOfBool a.opts.include_line_data,
   keyOfBool a.opts.include_word_data,
   keyOfBool a.opts.include_smiles,
   keyOfBool a.opts.include_inchi,
   keyOfBool a.opts.include_geometry_data,
   keyOfBool a.opts.include_diagram_text,
   keyOfRat a.opts.auto_rotate_confidence_threshold,
   keyOfBool a.opts.rm_spaces,
   keyOfBool a.opts.rm_fonts,
   keyOfBool a.opts.idiomatic_eqn_arrays,
   keyOfBool a.opts.idiomatic_braces,
   keyOfBool a.opts.numbers_default_to_math,
   keyOfBool a.opts.math_fonts_default_to_math,
   keyOfPair a.opts.math_inline_delimiters,
   keyOfPair a.opts.math_display_delimiters,
   keyOfBool a.opts.enable_spell_check,
   keyOfBool a.opts.enable_tables_fallback,
   keyOfBool a.opts.fullwidth_punctuation]

/-- The state an `Image` instance stores in `Image.__init__` (image.py lines
68-107): `file_path` and `file_url` after the `or ''` normalization, and every
processing option as passed. -/
structure ImageState where
  file_path : String
  file_url : String
  opts : ImageProcessingOptions
deriving DecidableEq

/-- `MathpixClient.image_new` (mathpix_client.py lines 40-166).  After the
explicit validation checks (exactly one file source, `len(formats) != 1`,
threshold ranges — where `len(formats)` itself raises `TypeError` when
`formats` is left as `None`), the `image_options` dictionary literal is
evaluated: building it hashes every key in source order and raises `TypeError`
on the first unhashable one; were it ever built, `Image(auth=self.auth,
**image_options)` would further require every key to be a `str`.  Only if all
of that succeeded would an `Image` be constructed and returned. -/
def image_new (a : ImageNewArgs) : Except MpxErr ImageState :=
  if fileArgCheckFails a then .error .validationError
  else match a.opts.formats with
  | none => .error .typeError
  | some fs =>
    if fs.length ≠ 1 then .error .validationError
    else if badThreshold a.opts.confidence_threshold then .error .validationError
    else if badThreshold a.opts.confidence_rate_threshold then .error .validationError
    else if badThreshold a.opts.auto_rotate_confidence_threshold then .error .validationError
    else if (imageOptionKeys a).all PyKey.hashable then
      if (imageOptionKeys a).all PyKey.isStr then
        .ok ⟨a.file_path.getD "", a.file_url.getD "", a.opts⟩
      else .error .typeError
    else .error .typeError

/-- A JSON value as sent in the request options of `Image.results`. -/
inductive JsonVal where
  | jnull
  | jbool (b : Bool)
  | jstr (s : String)
deriving DecidableEq

/-- `json.dumps` of an `Optional[bool]` attribute: `None` becomes `null`. -/
def optVal : Option Bool → JsonVal
  | none => .jnull
  | some b => .jbool b

/-- The request options `Image.results` sends to `v3/text` (image.py lines
109-159): the `options` dictionary is built at lines 129-131 as
`{"include_line_data": self.include_line_data}` — from the constructor-stored
attribute, not from the method's `include_line_data` parameter — and the URL
branch additionally sets `options["src"] = self.file_url` (line 151). -/
def resultsRequestOptions (img : ImageState) (include_line_data : Bool) :
    List (String × JsonVal) :=
  let options := [("include_line_data", optVal img.opts.include_line_data)]
  if img.file_path ≠ "" then options
  else options ++ [("src", .jstr img.file_url)]

/-- The request options sent by `Image.lines_json` (image.py lines 161-169),
which calls `self.results(include_line_data=True)`. -/
def linesJsonRequestOptions (img : ImageState) : List (String × JsonVal) :=
  resultsRequestOptions img true

/-! ### Helper lemmas about the polling loop -/

lemma checkSuccess_of_error {r : StatusResponse} (h : r.status = "error") :
    checkSuccess r = .ok false := by
  unfold checkSuccess
  rw [h, if_neg (by decide)]

lemma waitLoop_succ_eq (responses : Nat → StatusResponse) (attempt remaining : Nat) :
    waitLoop responses attempt (remaining + 1) =
      match checkSuccess (responses (attempt - 1)) with
      | .error e => (.error e, attempt)
      | .ok true => (.ok true, attempt)
      | .ok false =>
        if (responses (attempt - 1)).status = "error" then (.ok false, attempt)
        else waitLoop responses (attempt + 1) remaining := rfl

lemma wait_until_complete_int (t : Int) (responses : Nat → StatusResponse) :
    wait_until_complete (.int t) responses =
      if t ≤ 0 then (.error .valueError, 0) else waitLoop responses 1 (t.toNat - 1) := rfl

lemma waitLoop_success {responses : Nat → StatusResponse} {attempt remaining : Nat}
    (h : checkSuccess (responses (attempt - 1)) = .ok true) :
    waitLoop responses attempt (remaining + 1) = (.ok true, attempt) := by
  rw [waitLoop_succ_eq, h]

lemma waitLoop_error {responses : Nat → StatusResponse} {attempt remaining : Nat}
    (h : (responses (attempt - 1)).status = "error") :
    waitLoop responses attempt (remaining + 1) = (.ok false, attempt) := by
  rw [waitLoop_succ_eq, checkSuccess_of_error h]
  simp [h]

lemma waitLoop_step {responses : Nat → StatusResponse} {attempt remaining : Nat}
    (h : notStopping (responses (attempt - 1))) :
    waitLoop responses attempt (remaining + 1) = waitLoop responses (attempt + 1) remaining := by
  obtain ⟨h1, h2⟩ := h
  rw [waitLoop_succ_eq, h1]
  simp [h2]

lemma waitLoop_skip (responses : Nat → StatusResponse) (k : Nat) :
    ∀ attempt remaining : Nat, 1 ≤ attempt → k ≤ remaining →
      (∀ i, i < k → notStopping (responses (attempt - 1 + i))) →
      waitLoop responses attempt remaining = waitLoop responses (attempt + k) (remaining - k) := by
  induction k with
  | zero => intro attempt remaining _ _ _; simp
  | succ k ih =>
    intro attempt remaining h1 hk hns
    obtain ⟨r, rfl⟩ : ∃ r, remaining = r + 1 := ⟨remaining - 1, by omega⟩
    rw [waitLoop_step (by simpa using hns 0 (by omega))]
    rw [ih (attempt + 1) r (by omega) (by omega) (fun i hi => by
      have h := hns (i + 1) (by omega)
      have e : attempt - 1 + (i + 1) = attempt + 1 - 1 + i := by omega
      rwa [e] at h)]
    congr 1 <;> omega

lemma waitLoop_never (responses : Nat → StatusResponse)
    (hns : ∀ i, notStopping (responses i)) :
    ∀ remaining attempt : Nat, 1 ≤ attempt →
      waitLoop responses attempt remaining = (.ok false, attempt + remaining - 1) := by
  intro remaining
  induction remaining with
  | zero => intro attempt _; simp [waitLoop]
  | succ r ih =>
    intro attempt h1
    rw [waitLoop_step (hns _), ih (attempt + 1) (by omega)]
    congr 1
    omega

/-! ### Concrete payloads used by the witnesses -/

def exSuccessFormats : List (String × String) := [("docx", "completed"), ("tex", "error")]

def exSuccessPayload : StatusResponse := ⟨"completed", some exSuccessFormats⟩

def exProcessingPayload : StatusResponse := ⟨"processing", some [("docx", "processing")]⟩

def exErrorPayload : StatusResponse := ⟨"error", some [("docx", "error")]⟩

def exProcessingThenError : Nat → StatusResponse :=
  fun i => if i = 0 then exProcessingPayload else exErrorPayload

/-! ### Claim theorems -/

/-- C1: if the poller's fetch number `k+1` (which happens whenever `k + 1 <
timeout` and no earlier fetch triggered a stopping condition) returns a payload
with overall status `"completed"` in which every format entry is `"completed"`
or `"error"`, `wait_until_complete` returns `true` at exactly that fetch —
per-format `"error"` entries do not block overall success. -/
theorem wait_success_immediate (responses : Nat → StatusResponse) (t k : Nat)
    (m : List (String × String))
    (ht : k + 1 < t)
    (hpre : ∀ i, i < k → notStopping (responses i))
    (hstat : (responses k).status = "completed")
    (hmap : (responses k).conversion_status = some m)
    (hterm : ∀ fd ∈ m, fd.2 = "completed" ∨ fd.2 = "error") :
    wait_until_complete (.int (t : Int)) responses = (.ok true, k + 1) := by
  rw [wait_until_complete_int, if_neg (by omega)]
  have htn : ((t : Nat) : Int).toNat = t := by omega
  rw [htn]
  rw [waitLoop_skip responses k 1 (t - 1) (by omega) (by omega)
    (fun i hi => by simpa using hpre i hi)]
  obtain ⟨r, hr⟩ : ∃ r, t - 1 - k = r + 1 := ⟨t - 1 - k - 1, by omega⟩
  rw [hr]
  rw [waitLoop_success ?hs]
  · congr 1
    omega
  case hs =>
    have e : 1 + k - 1 = k := by omega
    rw [e]
    unfold checkSuccess
    rw [if_pos hstat, hmap]
    simp only [Except.ok.injEq, List.all_eq_true]
    intro fd hfd
    rcases hterm fd hfd with h | h <;> simp [h]

/-- Witness for C1: a job with formats `{docx: completed, tex: error}` and
overall status `"completed"` is accepted as a complete success at the first
fetch. -/
theorem wait_success_immediate_witness :
    wait_until_complete (.int 5) (fun _ => exSuccessPayload) = (.ok true, 1) :=
  wait_success_immediate (fun _ => exSuccessPayload) 5 0 exSuccessFormats
    (by omega) (fun i hi => absurd hi (by omega)) rfl rfl (by decide)

/-- C2: for every positive integer timeout `t` and every response stream that
never triggers a stopping condition, `wait_until_complete` performs exactly
`t - 1` status fetches (zero when `t = 1`) and returns `false`. -/
theorem wait_times_out (responses : Nat → StatusResponse) (t : Nat)
    (ht : 1 ≤ t) (hns : ∀ i, notStopping (responses i)) :
    wait_until_complete (.int (t : Int)) responses = (.ok false, t - 1) := by
  rw [wait_until_complete_int, if_neg (by omega)]
  have htn : ((t : Nat) : Int).toNat = t := by omega
  rw [htn]
  rw [waitLoop_never responses hns (t - 1) 1 (by omega)]
  congr 1
  omega

/-- Witness for C2: with `timeout = 3` and a stream that stays `"processing"`,
exactly 2 fetches occur and the result is `false`. -/
theorem wait_times_out_witness :
    wait_until_complete (.int 3) (fun _ => exProcessingPayload) = (.ok false, 2) :=
  wait_times_out (fun _ => exProcessingPayload) 3 (by omega)
    (fun _ => (by decide : notStopping exProcessingPayload))

/-- C3: if the fetch number `k+1` (happening whenever `k + 1 < timeout` and no
earlier fetch stopped the loop) returns a payload with overall status
`"error"`, the poller stops at exactly that fetch and returns `false` without
raising any exception. -/
theorem wait_error_stops (responses : Nat → StatusResponse) (t k : Nat)
    (ht : k + 1 < t)
    (hpre : ∀ i, i < k → notStopping (responses i))
    (herr : (responses k).status = "error") :
    wait_until_complete (.int (t : Int)) responses = (.ok false, k + 1) := by
  rw [wait_until_complete_int, if_neg (by omega)]
  have htn : ((t : Nat) : Int).toNat = t := by omega
  rw [htn]
  rw [waitLoop_skip responses k 1 (t - 1) (by omega) (by omega)
    (fun i hi => by simpa using hpre i hi)]
  obtain ⟨r, hr⟩ : ∃ r, t - 1 - k = r + 1 := ⟨t - 1 - k - 1, by omega⟩
  rw [hr]
  rw [waitLoop_error (by simpa using herr)]
  congr 1
  omega

/-- Witness for C3: the fetch sequence `[processing, error]` with `timeout = 5`
yields `false` after exactly 2 fetches. -/
theorem wait_error_stops_witness :
    wait_until_complete (.int 5) exProcessingThenError = (.ok false, 2) :=
  wait_error_stops exProcessingThenError 5 1 (by omega)
    (fun i hi => by
      have : i = 0 := by omega
      subst this
      decide)
    rfl

/-- C4: a timeout that is not of integer type, or an integer timeout `≤ 0`,
makes `wait_until_complete` raise `ValueError` (the error the spec's taxonomy
calls `InvalidArgument`) with zero status fetches performed, i.e. before any
network call. -/
theorem wait_invalid_timeout :
    (∀ responses, wait_until_complete .notAnInt responses = (.error .valueError, 0)) ∧
    (∀ (t : Int) responses, t ≤ 0 →
      wait_until_complete (.int t) responses = (.error .valueError, 0)) := by
  refine ⟨fun responses => rfl, fun t responses ht => ?_⟩
  rw [wait_until_complete_int, if_pos ht]

/-- Witness for C4: a non-integer timeout and the integer timeout `0` both
raise `ValueError` with zero fetches. -/
theorem wait_invalid_timeout_witness :
    wait_until_complete .notAnInt (fun _ => exProcessingPayload) = (.error .valueError, 0) ∧
    wait_until_complete (.int 0) (fun _ => exProcessingPayload) = (.error .valueError, 0) :=
  ⟨wait_invalid_timeout.1 (fun _ => exProcessingPayload),
   wait_invalid_timeout.2 0 (fun _ => exProcessingPayload) (by omega)⟩

/-- C5 counterexample: for a fetched status that is not complete for the
requested format, `download_output_to_local_path` raises
`ConversionIncompleteError` whose `status_info` is the empty default — it does
*not* carry the last-seen status payload, contrary to the claim. -/
theorem download_incomplete_payload_not_carried :
    (download_output_to_local_path "conv1" "docx" "out" exProcessingPayload [[1, 2]] none).1 =
      .error (.conversionIncomplete none) ∧
    MpxErr.conversionIncomplete none ≠
      MpxErr.conversionIncomplete (some exProcessingPayload) := by
  constructor
  · rfl
  · decide

/-- C5 (amended): when the fetched status lacks a `conversion_status` map, or
maps the requested format to a status other than `"completed"`, the call fails
with `ConversionIncompleteError` — carrying the constructor's empty default
`status_info`, not the fetched payload — and performs no filesystem writes (no
directory created, no file opened or written). -/
theorem download_incomplete_raises (conversion_id fmt path : String)
    (sr : StatusResponse) (chunks : List (List Nat)) (failAt : Option (Nat × String))
    (h : sr.conversion_status = none ∨
      ∃ m s, sr.conversion_status = some m ∧ lookupKey m fmt = some s ∧ s ≠ "completed") :
    download_output_to_local_path conversion_id fmt path sr chunks failAt =
      (.error (.conversionIncomplete none), ⟨[], []⟩) := by
  unfold download_output_to_local_path
  have hc : checkFormatCompleted sr fmt = .ok false := by
    rcases h with h | ⟨m, s, hm, hl, hs⟩
    · simp [checkFormatCompleted, h]
    · simp [checkFormatCompleted, hm, hl, hs]
  rw [hc]

/-- Witness for C5 (amended): a `processing` status for the requested format
yields `ConversionIncompleteError` with empty `status_info` and an empty
filesystem trace. -/
theorem download_incomplete_raises_witness :
    download_output_to_local_path "conv1" "docx" "out" exProcessingPayload [[1, 2]] none =
      (.error (.conversionIncomplete none), ⟨[], []⟩) :=
  download_incomplete_raises "conv1" "docx" "out" exProcessingPayload [[1, 2]] none
    (Or.inr ⟨[("docx", "processing")], "processing", rfl, rfl, by decide⟩)

lemma flatten_filter_ne_nil (l : List (List Nat)) :
    (l.filter (fun c => c ≠ [])).flatten = l.flatten := by
  induction l with
  | nil => rfl
  | cons c rest ih =>
    by_cases hc : c = []
    · subst hc
      simpa using ih
    · have hp : (fun c => decide (c ≠ ([] : List Nat))) c = true := by simp [hc]
      rw [List.filter_cons, if_pos hp, List.flatten_cons, List.flatten_cons, ih]

/-- C6: when the requested format's status is `"completed"`, the destination
directory is non-empty (and, `os.makedirs(..., exist_ok=True)` creating nested
segments regardless, need not exist), and no write step fails, the directory is
passed to `os.makedirs`, exactly one file named `{conversion_id}.{format}` is
written inside it with the full downloaded content, and the returned path is
`{directory}/{conversion_id}.{format}`. -/
theorem download_completed_writes_file (conversion_id fmt path : String)
    (sr : StatusResponse) (m : List (String × String)) (chunks : List (List Nat))
    (hpath : path ≠ "")
    (hslash : strEndsWith path "/" = false)
    (habs : strStartsWith (conversion_id ++ "." ++ fmt) "/" = false)
    (hm : sr.conversion_status = some m)
    (hfmt : lookupKey m fmt = some "completed") :
    download_output_to_local_path conversion_id fmt path sr chunks none =
      (.ok (path ++ "/" ++ (conversion_id ++ "." ++ fmt)),
       ⟨[path], [(path ++ "/" ++ (conversion_id ++ "." ++ fmt), chunks.flatten)]⟩) := by
  unfold download_output_to_local_path
  have hc : checkFormatCompleted sr fmt = .ok true := by
    simp [checkFormatCompleted, hm, hfmt]
  rw [hc]
  have hj : pathJoin path (conversion_id ++ "." ++ fmt) =
      path ++ "/" ++ (conversion_id ++ "." ++ fmt) := by
    unfold pathJoin
    rw [if_neg (by simp [habs]), if_neg hpath, if_neg (by simp [hslash])]
  simp only [hj, flatten_filter_ne_nil, if_pos hpath]

/-- Witness for C6: downloading a completed `docx` into directory `out/dir`
creates the directory and writes exactly `out/dir/conv1.docx`. -/
theorem download_completed_writes_file_witness :
    download_output_to_local_path "conv1" "docx" "out/dir"
      ⟨"completed", some [("docx", "completed")]⟩ [[1, 2], [], [3]] none =
      (.ok "out/dir/conv1.docx", ⟨["out/dir"], [("out/dir/conv1.docx", [1, 2, 3])]⟩) := by
  have h := download_completed_writes_file "conv1" "docx" "out/dir"
    ⟨"completed", some [("docx", "completed")]⟩ [("docx", "completed")] [[1, 2], [], [3]]
    (by decide) (by decide) (by decide) rfl rfl
  simpa using h

/-- C7: if any step of the chunked write loop raises (after any number of
flushed chunks), the call fails with `FilesystemError` carrying the underlying
cause as its chained context; the incompletely written file is never reported as
success. -/
theorem download_write_failure_raises (conversion_id fmt path : String)
    (sr : StatusResponse) (chunks : List (List Nat)) (n : Nat) (cause : String)
    (h : checkFormatCompleted sr fmt = .ok true) :
    (download_output_to_local_path conversion_id fmt path sr chunks (some (n, cause))).1 =
      .error (.filesystemError cause) ∧
    ∀ s, (download_output_to_local_path conversion_id fmt path sr chunks (some (n, cause))).1 ≠
      .ok s := by
  unfold download_output_to_local_path
  rw [h]
  exact ⟨rfl, fun s hs => by simp at hs⟩

/-- Witness for C7: a write fault after one flushed chunk surfaces as
`FilesystemError` with the cause attached, not as success. -/
theorem download_write_failure_raises_witness :
    (download_output_to_local_path "conv1" "docx" "out"
      ⟨"completed", some [("docx", "completed")]⟩ [[1, 2], [3]] (some (1, "disk full"))).1 =
      .error (.filesystemError "disk full") :=
  (download_write_failure_raises "conv1" "docx" "out"
    ⟨"completed", some [("docx", "completed")]⟩ [[1, 2], [3]] 1 "disk full" rfl).1

lemma waitLoop_wf (responses : Nat → StatusResponse)
    (hwf : ∀ i, (responses i).status = "completed" → (responses i).conversion_status ≠ none) :
    ∀ remaining attempt : Nat, ∃ b n, waitLoop responses attempt remaining = (.ok b, n) := by
  intro remaining
  induction remaining with
  | zero => intro attempt; exact ⟨false, attempt - 1, rfl⟩
  | succ r ih =>
    intro attempt
    have hcs : ∃ v, checkSuccess (responses (attempt - 1)) = .ok v := by
      unfold checkSuccess
      by_cases h : (responses (attempt - 1)).status = "completed"
      · rw [if_pos h]
        cases hm : (responses (attempt - 1)).conversion_status with
        | none => exact absurd hm (hwf _ h)
        | some m => exact ⟨_, rfl⟩
      · rw [if_neg h]
        exact ⟨false, rfl⟩
    obtain ⟨v, hv⟩ := hcs
    cases v with
    | true => exact ⟨true, attempt, by rw [waitLoop_succ_eq, hv]⟩
    | false =>
      by_cases he : (responses (attempt - 1)).status = "error"
      · exact ⟨false, attempt, by rw [waitLoop_succ_eq, hv]; simp [he]⟩
      · obtain ⟨b, n, hb⟩ := ih (attempt + 1)
        refine ⟨b, n, ?_⟩
        rw [waitLoop_succ_eq, hv]
        simpa [he] using hb

/-- A valid `image_new` argument combination: a remote URL and a one-element
`formats` list. -/
def exImageArgs : ImageNewArgs :=
  { file_url := some "https://x/img.jpg", opts := { formats := some ["text"] } }

/-- A valid `image_new` argument combination leaving `formats` at its default
`None`. -/
def exImageArgsNoFormats : ImageNewArgs := { file_url := some "https://x/img.jpg" }

/-- C8 counterexample: `image_new` is a public client operation, yet on a valid
argument combination it surfaces a raw `TypeError`, which is none of the four
typed errors — so callers do not always receive a result or a typed error. -/
theorem client_surfaces_raw_type_error :
    image_new exImageArgs = .error .typeError ∧
    MpxErr.isTypedError .typeError = false := ⟨by decide, rfl⟩

/-- C8 (amended): the polling and safe-download operations return a normal
result or raise one of the typed errors, *provided* their status payloads
contain the keys they index (overall-`completed` payloads carry a
`conversion_status` map; a present map contains the requested format) — a
malformed payload surfaces a raw `KeyError`, and resource creation via
`image_new` surfaces a raw `TypeError`. -/
theorem client_errors_typed :
    (∀ (arg : TimeoutArg) (responses : Nat → StatusResponse),
      (∀ i, (responses i).status = "completed" → (responses i).conversion_status ≠ none) →
      (∃ b n, wait_until_complete arg responses = (.ok b, n)) ∨
      (∃ e n, wait_until_complete arg responses = (.error e, n) ∧ e.isTypedError = true)) ∧
    (∀ (conversion_id fmt path : String) (sr : StatusResponse)
        (chunks : List (List Nat)) (failAt : Option (Nat × String)),
      (∀ m, sr.conversion_status = some m → lookupKey m fmt ≠ none) →
      (∃ s fs, download_output_to_local_path conversion_id fmt path sr chunks failAt =
        (.ok s, fs)) ∨
      (∃ e fs, download_output_to_local_path conversion_id fmt path sr chunks failAt =
        (.error e, fs) ∧ e.isTypedError = true)) := by
  constructor
  · intro arg responses hwf
    cases arg with
    | notAnInt => exact Or.inr ⟨.valueError, 0, rfl, rfl⟩
    | int t =>
      by_cases ht : t ≤ 0
      · exact Or.inr ⟨.valueError, 0, by rw [wait_until_complete_int, if_pos ht], rfl⟩
      · obtain ⟨b, n, hb⟩ := waitLoop_wf responses hwf (t.toNat - 1) 1
        exact Or.inl ⟨b, n, by rw [wait_until_complete_int, if_neg ht]; exact hb⟩
  · intro conversion_id fmt path sr chunks failAt hwf
    unfold download_output_to_local_path
    cases hm : sr.conversion_status with
    | none =>
      have hc : checkFormatCompleted sr fmt = .ok false := by
        simp [checkFormatCompleted, hm]
      rw [hc]
      exact Or.inr ⟨_, _, rfl, rfl⟩
    | some m =>
      cases hl : lookupKey m fmt with
      | none => exact absurd hl (hwf m hm)
      | some fd =>
        by_cases hfd : fd = "completed"
        · have hc : checkFormatCompleted sr fmt = .ok true := by
            simp [checkFormatCompleted, hm, hl, hfd]
          rw [hc]
          cases failAt with
          | none => exact Or.inl ⟨_, _, rfl⟩
          | some nc => exact Or.inr ⟨_, _, rfl, rfl⟩
        · have hc : checkFormatCompleted sr fmt = .ok false := by
            simp [checkFormatCompleted, hm, hl, hfd]
          rw [hc]
          exact Or.inr ⟨_, _, rfl, rfl⟩

/-- Witness for C8 (amended): a well-formed `processing` stream yields a normal
boolean from the poller, and a well-formed incomplete status yields a typed
error from the safe download. -/
theorem client_errors_typed_witness :
    ((∃ b n, wait_until_complete (.int 3) (fun _ => exProcessingPayload) = (.ok b, n)) ∨
     (∃ e n, wait_until_complete (.int 3) (fun _ => exProcessingPayload) = (.error e, n) ∧
       e.isTypedError = true)) ∧
    ((∃ s fs, download_output_to_local_path "conv1" "docx" "out" exProcessingPayload
        [[1]] none = (.ok s, fs)) ∨
     (∃ e fs, download_output_to_local_path "conv1" "docx" "out" exProcessingPayload
        [[1]] none = (.error e, fs) ∧ e.isTypedError = true)) :=
  ⟨client_errors_typed.1 (.int 3) (fun _ => exProcessingPayload)
    (fun i h => by simp [exProcessingPayload] at h),
   client_errors_typed.2 "conv1" "docx" "out" exProcessingPayload [[1]] none
    (fun m hm => by
      simp only [exProcessingPayload, Option.some.injEq] at hm
      subst hm
      decide)⟩

lemma imageOptionKeys_not_hashable {a : ImageNewArgs} {fs : List String}
    (h : a.opts.formats = some fs) :
    (imageOptionKeys a).all PyKey.hashable = false := by
  simp [imageOptionKeys, h, keyOfList, PyKey.hashable]

lemma image_new_is_error (a : ImageNewArgs) : ∃ e, image_new a = .error e := by
  cases h2 : a.opts.formats with
  | none =>
    simp only [image_new, h2]
    split_ifs <;> exact ⟨_, rfl⟩
  | some fs =>
    have hk : (imageOptionKeys a).all PyKey.hashable = false := imageOptionKeys_not_hashable h2
    simp only [image_new, h2]
    split_ifs
    all_goals first
      | exact ⟨_, rfl⟩
      | exact absurd ‹(imageOptionKeys a).all PyKey.hashable = true› (by simp [hk])

/-- C9: every call to `image_new` raises before returning — with the default
`formats=None` the `len(formats)` check raises `TypeError`; with `formats` a
one-element list (and every explicit validation check passing) the
`image_options` dictionary literal uses the list value as a key and raises
`TypeError: unhashable type` — so `image_new` never constructs and returns an
`Image` instance. -/
theorem image_new_always_raises :
    (∀ a img, image_new a ≠ .ok img) ∧
    (∀ a, fileArgCheckFails a = false → a.opts.formats = none →
      image_new a = .error .typeError) ∧
    (∀ a fs, fileArgCheckFails a = false → a.opts.formats = some fs → fs.length = 1 →
      badThreshold a.opts.confidence_threshold = false →
      badThreshold a.opts.confidence_rate_threshold = false →
      badThreshold a.opts.auto_rotate_confidence_threshold = false →
      image_new a = .error .typeError) := by
  refine ⟨?_, ?_, ?_⟩
  · intro a img h
    obtain ⟨e, he⟩ := image_new_is_error a
    rw [he] at h
    simp at h
  · intro a h1 h2
    simp [image_new, h1, h2]
  · intro a fs h1 h2 h3 h4 h5 h6
    simp [image_new, h1, h2, h3, h4, h5, h6, imageOptionKeys_not_hashable h2]

/-- Witness for C9: a URL-only call with `formats=["text"]` raises `TypeError`
at the dictionary literal, and one with the default `formats=None` raises
`TypeError` at the `len(formats)` check. -/
theorem image_new_always_raises_witness :
    image_new exImageArgs = .error .typeError ∧
    image_new exImageArgsNoFormats = .error .typeError :=
  ⟨image_new_always_raises.2.2 exImageArgs ["text"] rfl rfl rfl rfl rfl rfl,
   image_new_always_raises.2.1 exImageArgsNoFormats rfl rfl⟩

/-- C10: `Image.results` ignores its `include_line_data` parameter — the
request options are the same for any argument and carry the
constructor-stored `self.include_line_data` (and no other stored processing
option); `lines_json`, which calls `results(include_line_data=True)`, therefore
sends exactly those options, requesting line data only if the `Image` was
constructed with `include_line_data=True`. -/
theorem results_ignores_parameter :
    (∀ img b b', resultsRequestOptions img b = resultsRequestOptions img b') ∧
    (∀ img b, lookupKey (resultsRequestOptions img b) "include_line_data" =
      some (optVal img.opts.include_line_data)) ∧
    (∀ img b k v, (k, v) ∈ resultsRequestOptions img b →
      k = "include_line_data" ∨ k = "src") ∧
    (∀ img, linesJsonRequestOptions img = resultsRequestOptions img true) := by
  refine ⟨fun img b b' => rfl, ?_, ?_, fun img => rfl⟩
  · intro img b
    unfold resultsRequestOptions
    by_cases h : img.file_path = ""
    · simp [h, lookupKey]
    · simp [h, lookupKey]
  · intro img b k v hmem
    by_cases h : img.file_path = ""
    · simp [resultsRequestOptions, h] at hmem
      rcases hmem with ⟨hk, _⟩ | ⟨hk, _⟩
      · exact Or.inl hk
      · exact Or.inr hk
    · simp [resultsRequestOptions, h] at hmem
      exact Or.inl hmem.1

def exImage : ImageState := ⟨"", "https://x/img.jpg", {}⟩

/-- Witness for C10: for a URL-backed image constructed with
`include_line_data=None`, `results(include_line_data=True)` and
`results(include_line_data=False)` send the same options, whose
`include_line_data` entry is the stored `null`, and `lines_json` sends exactly
the options of `results(include_line_data=True)`. -/
theorem results_ignores_parameter_witness :
    resultsRequestOptions exImage false = resultsRequestOptions exImage true ∧
    lookupKey (resultsRequestOptions exImage true) "include_line_data" =
      some (optVal exImage.opts.include_line_data) ∧
    ("include_line_data" = "include_line_data" ∨ "include_line_data" = "src") ∧
    linesJsonRequestOptions exImage = resultsRequestOptions exImage true :=
  ⟨results_ignores_parameter.1 exImage false true,
   results_ignores_parameter.2.1 exImage true,
   results_ignores_parameter.2.2.1 exImage true "include_line_data"
     (optVal exImage.opts.include_line_data) (by decide),
   results_ignores_parameter.2.2.2 exImage⟩

end Mpxpy
